import Mathlib

/-!
Verification of the A/B-test power-analysis calculator
(src/data-analysis/power_analysis_calculator.py) against its
natural-language specification.

Modelling conventions:
* Python floats are modelled by exact rationals (ℚ); the derived critical
  values z_alpha_2 and z_beta are frozen at construction from an abstract
  normal-quantile function `ppf : ℚ → ℚ` standing in for scipy's
  stats.norm.ppf.
* Python's exception channel is modelled by `Except CalcError`; a function
  that never raises returns `.ok` on every input.
* Python's round(x, 2) (round-half-to-even) is modelled exactly on ℚ.
-/

namespace PowerAnalysis

/-- Feasibility bucket strings of the calculator. -/
inductive Feasibility
  | veryShort
  | short
  | moderate
  | long
deriving DecidableEq, Repr

/-- Traffic-assessment bucket strings of the calculator. -/
inductive TrafficAssessment
  | excellent
  | good
  | challenging
  | insufficientTraffic
deriving DecidableEq, Repr

/-- Error kinds: the two structured errors the spec names, plus the
unstructured runtime failure Python actually produces when
int(np.ceil(x)) is applied to a non-finite value (mde = 0). -/
inductive CalcError
  | invalidParameter
  | invalidMDE
  | overflowError
deriving DecidableEq, Repr

/-- State of a PowerAnalysisCalculator right after __init__: the five
scalar inputs plus the two critical values computed once at construction. -/
structure PowerAnalysisCalculator where
  baseline_rate : ℚ
  monthly_population : ℚ
  num_variants : ℤ
  power : ℚ
  alpha : ℚ
  z_alpha_2 : ℚ
  z_beta : ℚ
deriving DecidableEq, Repr

/-- Embedding of PowerAnalysisCalculator.__init__ (lines 33-59): stores the
five inputs unchanged and freezes z_alpha_2 = ppf(1 - alpha/2) and
z_beta = ppf(power). The constructor performs no validation. -/
def init (ppf : ℚ → ℚ) (baseline_rate monthly_population : ℚ)
    (num_variants : ℤ) (power alpha : ℚ) : PowerAnalysisCalculator :=
  { baseline_rate := baseline_rate
    monthly_population := monthly_population
    num_variants := num_variants
    power := power
    alpha := alpha
    z_alpha_2 := ppf (1 - alpha / 2)
    z_beta := ppf power }

/-- Construction seen through the exception channel: __init__ contains no
raise statement and no operation that can fail, so it always returns ok. -/
def initE (ppf : ℚ → ℚ) (baseline_rate monthly_population : ℚ)
    (num_variants : ℤ) (power alpha : ℚ) :
    Except CalcError PowerAnalysisCalculator :=
  Except.ok (init ppf baseline_rate monthly_population num_variants power alpha)

/-- Embedding of calculate_sample_size (lines 61-79):
int(np.ceil(2 * (z_alpha_2 + z_beta)^2 * p * (1-p) / mde^2)).
At mde = 0 the float division yields a non-finite value and the int()
conversion raises (modelled as overflowError); there is no mde validation. -/
def calculate_sample_size (c : PowerAnalysisCalculator) (mde : ℚ) :
    Except CalcError ℤ :=
  if mde = 0 then
    Except.error CalcError.overflowError
  else
    Except.ok
      ⌈2 * (c.z_alpha_2 + c.z_beta) ^ 2 * c.baseline_rate *
          (1 - c.baseline_rate) / mde ^ 2⌉

/-- Reference values of the standard normal quantile function at the two
points the canonical example uses, to the six digits the spec quotes:
ppf(0.975) = 1.959964, ppf(0.8) = 0.841621. Other points are irrelevant to
the concrete computations below. -/
def ppf6 : ℚ → ℚ := fun q =>
  if q = 39 / 40 then 1959964 / 1000000
  else if q = 4 / 5 then 841621 / 1000000
  else 0

/-- Canonical example calculator of the spec: baseline 5%, population
100000, two variants, power 0.8, alpha 0.05. -/
def cRef : PowerAnalysisCalculator :=
  init ppf6 (1 / 20) 100000 2 (4 / 5) (1 / 20)

/-- Rounding of a rational to the nearest integer with ties going to the
even integer, the tie-breaking rule of Python's built-in round(). -/
def roundHalfEven (q : ℚ) : ℤ :=
  let f : ℤ := ⌊q⌋
  if q - f < 1 / 2 then f
  else if 1 / 2 < q - f then f + 1
  else if 2 ∣ f then f else f + 1

/-- Embedding of Python's round(x, 2): round half-to-even at the second
decimal place. -/
def round2 (q : ℚ) : ℚ :=
  (roundHalfEven (100 * q) : ℚ) / 100

/-- Feasibility classification of a duration in days (lines 113-120). -/
def feasibilityOf (duration_days : ℚ) : Feasibility :=
  if duration_days ≤ 7 then Feasibility.veryShort
  else if duration_days ≤ 14 then Feasibility.short
  else if duration_days ≤ 30 then Feasibility.moderate
  else Feasibility.long

/-- Traffic-requirement classification of a population split percentage
(lines 122-130). -/
def trafficOf (population_split_percent : ℚ) : TrafficAssessment :=
  if population_split_percent ≤ 25 then TrafficAssessment.excellent
  else if population_split_percent ≤ 50 then TrafficAssessment.good
  else if population_split_percent ≤ 75 then TrafficAssessment.challenging
  else TrafficAssessment.insufficientTraffic

/-- One row of the results table (the dict appended at lines 132-142).
The split and duration fields hold the round(·, 2) display values, exactly
as the code stores them. -/
structure ResultRecord where
  mde_percent : ℚ
  mde_decimal : ℚ
  sample_size_per_variant : ℤ
  total_sample_size : ℤ
  population_split_percent : ℚ
  duration_days : ℚ
  duration_weeks : ℚ
  feasibility : Feasibility
  traffic_assessment : TrafficAssessment
deriving DecidableEq, Repr

/-- Body of the sweep loop (lines 99-142) for a single mde_percent value:
sample size, totals, raw split/duration metrics, classification on the raw
values, then the record with the rounded display fields. -/
def buildRecord (c : PowerAnalysisCalculator) (mde_percent : ℚ) :
    Except CalcError ResultRecord :=
  (calculate_sample_size c (mde_percent / 100)).map fun n =>
    let total : ℤ := n * c.num_variants
    let population_split_percent : ℚ := (total / c.monthly_population) * 100
    let daily_population : ℚ := c.monthly_population / 30
    let duration_days : ℚ := total / daily_population
    let duration_weeks : ℚ := duration_days / 7
    { mde_percent := mde_percent
      mde_decimal := mde_percent / 100
      sample_size_per_variant := n
      total_sample_size := total
      population_split_percent := round2 population_split_percent
      duration_days := round2 duration_days
      duration_weeks := round2 duration_weeks
      feasibility := feasibilityOf duration_days
      traffic_assessment := trafficOf population_split_percent }

/-- Default MDE range of the sweep: list(range(1, 31)), i.e. 1% to 30%. -/
def defaultMdeRange : List ℚ :=
  (List.range' 1 30).map fun n => (n : ℚ)

/-- Embedding of calculate_power_analysis (lines 81-145) as the pure sweep:
one record per MDE value, in range order; an exception in the loop aborts
the whole sweep. -/
def calculate_power_analysis (c : PowerAnalysisCalculator)
    (mde_range : Option (List ℚ)) : Except CalcError (List ResultRecord) :=
  (mde_range.getD defaultMdeRange).mapM (buildRecord c)

/-- Object state around the sweep: the frozen parameters plus the
results_df attribute, absent until the first successful sweep. -/
structure CalcState where
  calculator : PowerAnalysisCalculator
  results_df : Option (List ResultRecord)
deriving DecidableEq, Repr

/-- Stateful view of calculate_power_analysis: the method recomputes the
table from scratch (never reading any previous results_df), stores it in
self.results_df and also returns it; on an exception the state is
unchanged. -/
def calculate_power_analysis_run (s : CalcState)
    (mde_range : Option (List ℚ)) :
    Except CalcError (List ResultRecord) × CalcState :=
  match calculate_power_analysis s.calculator mde_range with
  | Except.ok rs => (Except.ok rs, { s with results_df := some rs })
  | Except.error e => (Except.error e, s)

/-- Payload of one recommendation: the mde, duration and sample_size keys
of the dicts built at lines 213-238. -/
structure Recommendation where
  mde : ℚ
  duration : ℚ
  sample_size : ℤ
deriving DecidableEq, Repr

/-- Projection of a result row to the three fields a recommendation
carries: MDE_Percent, Duration_Days, Total_Sample_Size. -/
def Recommendation.ofRecord (r : ResultRecord) : Recommendation :=
  { mde := r.mde_percent
    duration := r.duration_days
    sample_size := r.total_sample_size }

/-- Result of get_recommendations: the three optional scenarios. -/
structure Recommendations where
  quick_test : Option Recommendation
  standard_test : Option Recommendation
  sensitive_test : Option Recommendation
deriving DecidableEq, Repr

/-- Feasibility filter of get_recommendations (lines 199-202):
Duration_Days <= 30 and Population_Split_Percent <= 50, on the stored
record fields. -/
def feasibleOf (rs : List ResultRecord) : List ResultRecord :=
  rs.filter fun r =>
    decide (r.duration_days ≤ 30 ∧ r.population_split_percent ≤ 50)

/-- Candidate pool of the quick test (line 211): feasible rows with
Duration_Days <= 7. -/
def quickPool (rs : List ResultRecord) : List ResultRecord :=
  (feasibleOf rs).filter fun r => decide (r.duration_days ≤ 7)

/-- Candidate pool of the standard test (lines 220-223): feasible rows with
7 < Duration_Days <= 21. -/
def standardPool (rs : List ResultRecord) : List ResultRecord :=
  (feasibleOf rs).filter fun r =>
    decide (7 < r.duration_days ∧ r.duration_days ≤ 21)

/-- Embedding of get_recommendations (lines 187-240) applied to a results
table: quick takes the last row of its pool (iloc[-1]), standard the row at
index len // 2 of its pool, sensitive the first feasible row (iloc[0]);
each is None when its pool is empty. -/
def get_recommendations (rs : List ResultRecord) : Recommendations :=
  { quick_test := (quickPool rs).getLast?.map Recommendation.ofRecord
    standard_test :=
      ((standardPool rs)[(standardPool rs).length / 2]?).map
        Recommendation.ofRecord
    sensitive_test := (feasibleOf rs).head?.map Recommendation.ofRecord }

lemma cRef_baseline : cRef.baseline_rate = 1 / 20 := rfl

lemma cRef_z_sum : cRef.z_alpha_2 + cRef.z_beta = 2801585 / 1000000 := by
  show ppf6 (1 - 1 / 20 / 2) + ppf6 (4 / 5) = 2801585 / 1000000
  norm_num [ppf6]

lemma calculate_sample_size_cRef_tenth :
    calculate_sample_size cRef (1 / 10) = Except.ok 75 := by
  rw [calculate_sample_size, if_neg (by norm_num)]
  rw [cRef_z_sum, cRef_baseline]
  norm_num [Int.ceil_eq_iff]

/-- C1: for every calculator state with baseline rate in (0,1) and every
positive mde, calculate_sample_size returns exactly the ceiling of
2 * (z_alpha_2 + z_beta)^2 * p * (1-p) / mde^2, with the frozen z-values,
and the returned integer is never below the exact rational value. -/
theorem C1_sample_size_is_ceiling (c : PowerAnalysisCalculator) (mde : ℚ)
    (_hp0 : 0 < c.baseline_rate) (_hp1 : c.baseline_rate < 1) (hm : 0 < mde) :
    ∃ n : ℤ,
      calculate_sample_size c mde = Except.ok n ∧
      n = ⌈2 * (c.z_alpha_2 + c.z_beta) ^ 2 * c.baseline_rate *
            (1 - c.baseline_rate) / mde ^ 2⌉ ∧
      2 * (c.z_alpha_2 + c.z_beta) ^ 2 * c.baseline_rate *
            (1 - c.baseline_rate) / mde ^ 2 ≤ (n : ℚ) := by
  refine ⟨_, ?_, rfl, Int.le_ceil _⟩
  rw [calculate_sample_size, if_neg (ne_of_gt hm)]

/-- Witness for C1 at the canonical parameters with mde = 0.10. -/
theorem C1_witness :
    ∃ n : ℤ,
      calculate_sample_size cRef (1 / 10) = Except.ok n ∧
      n = ⌈2 * (cRef.z_alpha_2 + cRef.z_beta) ^ 2 * cRef.baseline_rate *
            (1 - cRef.baseline_rate) / (1 / 10 : ℚ) ^ 2⌉ ∧
      2 * (cRef.z_alpha_2 + cRef.z_beta) ^ 2 * cRef.baseline_rate *
            (1 - cRef.baseline_rate) / (1 / 10 : ℚ) ^ 2 ≤ (n : ℚ) :=
  C1_sample_size_is_ceiling cRef (1 / 10)
    (by rw [cRef_baseline]; norm_num)
    (by rw [cRef_baseline]; norm_num)
    (by norm_num)

/-- C2 counterexample: every construction the claim requires to fail with
InvalidParameter in fact succeeds — baseline_rate 0 and 1, alpha 0,
power 1, num_variants 1, monthly_population 0, and negative inputs all
produce a calculator without any error. -/
theorem C2_counterexample :
    (initE ppf6 0 100000 2 (4 / 5) (1 / 20) ≠
        Except.error CalcError.invalidParameter) ∧
    (initE ppf6 1 100000 2 (4 / 5) (1 / 20) ≠
        Except.error CalcError.invalidParameter) ∧
    (initE ppf6 (1 / 20) 100000 2 (4 / 5) 0 ≠
        Except.error CalcError.invalidParameter) ∧
    (initE ppf6 (1 / 20) 100000 2 1 (1 / 20) ≠
        Except.error CalcError.invalidParameter) ∧
    (initE ppf6 (1 / 20) 100000 1 (4 / 5) (1 / 20) ≠
        Except.error CalcError.invalidParameter) ∧
    (initE ppf6 (1 / 20) 0 2 (4 / 5) (1 / 20) ≠
        Except.error CalcError.invalidParameter) ∧
    (initE ppf6 (-1 / 20) (-100000) (-1) (4 / 5) (1 / 20) ≠
        Except.error CalcError.invalidParameter) := by
  refine ⟨?_, ?_, ?_, ?_, ?_, ?_, ?_⟩ <;> simp [initE]

/-- C2 amended: __init__ performs no validation at all — for every input
combination, construction succeeds and returns the calculator that stores
the five scalars unchanged with the two z-values frozen from the quantile
function; no InvalidParameter error exists in the code and computation
proceeds on every input. -/
theorem C2_init_never_fails (ppf : ℚ → ℚ) (baseline_rate monthly_population : ℚ)
    (num_variants : ℤ) (power alpha : ℚ) :
    initE ppf baseline_rate monthly_population num_variants power alpha =
      Except.ok
        { baseline_rate := baseline_rate
          monthly_population := monthly_population
          num_variants := num_variants
          power := power
          alpha := alpha
          z_alpha_2 := ppf (1 - alpha / 2)
          z_beta := ppf power } := rfl

/-- C3 counterexample: at the negative MDE -0.10 the claim requires an
InvalidMDE failure, but calculate_sample_size returns the ordinary value
75 (the same as for +0.10). -/
theorem C3_counterexample :
    (-1 / 10 : ℚ) ≤ 0 ∧
    calculate_sample_size cRef (-1 / 10) = Except.ok 75 := by
  refine ⟨by norm_num, ?_⟩
  rw [calculate_sample_size, if_neg (by norm_num)]
  rw [cRef_z_sum, cRef_baseline]
  norm_num [Int.ceil_eq_iff]

/-- C3 amended: calculate_sample_size never raises InvalidMDE. For every
nonzero mde — negative values included — it returns a value, and at
mde = 0 it fails with the runtime int-conversion error, not InvalidMDE. -/
theorem C3_no_invalid_mde_error (c : PowerAnalysisCalculator) (mde : ℚ) :
    calculate_sample_size c mde ≠ Except.error CalcError.invalidMDE ∧
    (mde ≠ 0 → ∃ n : ℤ, calculate_sample_size c mde = Except.ok n) ∧
    (mde = 0 →
      calculate_sample_size c mde = Except.error CalcError.overflowError) := by
  unfold calculate_sample_size
  by_cases h : mde = 0 <;> simp [h]

/-- Witness for C3 amended at mde = 0 and mde = -0.10. -/
theorem C3_witness :
    calculate_sample_size cRef 0 = Except.error CalcError.overflowError ∧
    ∃ n : ℤ, calculate_sample_size cRef (-1 / 10) = Except.ok n :=
  ⟨(C3_no_invalid_mde_error cRef 0).2.2 rfl,
   (C3_no_invalid_mde_error cRef (-1 / 10)).2.1 (by norm_num)⟩

/-- C8 counterexample: the value of
ceil(2 * (1.959964 + 0.841621)^2 * 0.05 * 0.95 / 0.01) is 75, not
approximately 1492, and the function returns 75 at the canonical inputs. -/
theorem C8_counterexample :
    (⌈2 * (1959964 / 1000000 + 841621 / 1000000 : ℚ) ^ 2 * (5 / 100) *
        (95 / 100) / (1 / 100)⌉ : ℤ) = 75 ∧
    calculate_sample_size cRef (1 / 10) = Except.ok 75 ∧
    (75 : ℤ) ≠ 1492 := by
  refine ⟨by norm_num [Int.ceil_eq_iff], calculate_sample_size_cRef_tenth,
    by norm_num⟩

/-- C8 amended: at baseline_rate 0.05, monthly_population 100000,
num_variants 2, power 0.8, alpha 0.05 and mde_decimal 0.10, the function
returns exactly ceil(2 * (1.959964 + 0.841621)^2 * 0.05 * 0.95 / 0.01),
and that value is 75 (the spec's quoted 1492 does not match its own
formula). -/
theorem C8_canonical_value :
    calculate_sample_size cRef (1 / 10) =
      Except.ok ⌈2 * (1959964 / 1000000 + 841621 / 1000000 : ℚ) ^ 2 *
        (5 / 100) * (95 / 100) / (1 / 100)⌉ ∧
    calculate_sample_size cRef (1 / 10) = Except.ok 75 := by
  refine ⟨?_, calculate_sample_size_cRef_tenth⟩
  rw [calculate_sample_size_cRef_tenth]
  have h : (⌈2 * (1959964 / 1000000 + 841621 / 1000000 : ℚ) ^ 2 *
      (5 / 100) * (95 / 100) / (1 / 100)⌉ : ℤ) = 75 := by
    norm_num [Int.ceil_eq_iff]
  rw [h]

/-- C7 counterexample: with the canonical parameters and
0 < 0.5 < 0.6, the sample sizes at mde 0.5 and 0.6 are both 3 — the
sample size is not strictly decreasing in the MDE. -/
theorem C7_counterexample :
    (0 : ℚ) < 1 / 2 ∧ (1 / 2 : ℚ) < 3 / 5 ∧
    calculate_sample_size cRef (1 / 2) = Except.ok 3 ∧
    calculate_sample_size cRef (3 / 5) = Except.ok 3 ∧
    ¬ ((3 : ℤ) < 3) := by
  refine ⟨by norm_num, by norm_num, ?_, ?_, by norm_num⟩
  · rw [calculate_sample_size, if_neg (by norm_num), cRef_z_sum, cRef_baseline]
    norm_num [Int.ceil_eq_iff]
  · rw [calculate_sample_size, if_neg (by norm_num), cRef_z_sum, cRef_baseline]
    norm_num [Int.ceil_eq_iff]

/-- C7 amended: for every calculator state with baseline rate in (0,1) and
every pair 0 < mde1 < mde2 the sample size is antitone (non-increasing):
sample_size(mde2) <= sample_size(mde1). Strictness fails where the ceiling
collapses equal values. -/
theorem C7_sample_size_antitone (c : PowerAnalysisCalculator)
    (mde1 mde2 : ℚ) (hp0 : 0 < c.baseline_rate) (hp1 : c.baseline_rate < 1)
    (h1 : 0 < mde1) (h12 : mde1 < mde2) :
    ∃ n1 n2 : ℤ,
      calculate_sample_size c mde1 = Except.ok n1 ∧
      calculate_sample_size c mde2 = Except.ok n2 ∧ n2 ≤ n1 := by
  have h2 : 0 < mde2 := h1.trans h12
  refine
    ⟨⌈2 * (c.z_alpha_2 + c.z_beta) ^ 2 * c.baseline_rate *
        (1 - c.baseline_rate) / mde1 ^ 2⌉,
     ⌈2 * (c.z_alpha_2 + c.z_beta) ^ 2 * c.baseline_rate *
        (1 - c.baseline_rate) / mde2 ^ 2⌉, ?_, ?_, ?_⟩
  · rw [calculate_sample_size, if_neg (ne_of_gt h1)]
  · rw [calculate_sample_size, if_neg (ne_of_gt h2)]
  · apply Int.ceil_mono
    have hK : 0 ≤ 2 * (c.z_alpha_2 + c.z_beta) ^ 2 * c.baseline_rate *
        (1 - c.baseline_rate) := by
      have h1p : (0 : ℚ) ≤ 1 - c.baseline_rate := by linarith
      have := mul_nonneg
        (mul_nonneg (by positivity : (0 : ℚ) ≤ 2 * (c.z_alpha_2 + c.z_beta) ^ 2)
          hp0.le) h1p
      linarith [this]
    have hsq : mde1 ^ 2 ≤ mde2 ^ 2 := pow_le_pow_left₀ h1.le h12.le 2
    have hsq1 : (0 : ℚ) < mde1 ^ 2 := pow_pos h1 2
    gcongr

/-- Witness for C7 amended at the canonical parameters with
mde1 = 0.10 and mde2 = 0.50. -/
theorem C7_witness :
    ∃ n1 n2 : ℤ,
      calculate_sample_size cRef (1 / 10) = Except.ok n1 ∧
      calculate_sample_size cRef (1 / 2) = Except.ok n2 ∧ n2 ≤ n1 :=
  C7_sample_size_antitone cRef (1 / 10) (1 / 2)
    (by rw [cRef_baseline]; norm_num)
    (by rw [cRef_baseline]; norm_num)
    (by norm_num) (by norm_num)

lemma run_fst (s : CalcState) (mde_range : Option (List ℚ)) :
    (calculate_power_analysis_run s mde_range).1 =
      calculate_power_analysis s.calculator mde_range := by
  unfold calculate_power_analysis_run
  cases h : calculate_power_analysis s.calculator mde_range <;> simp

lemma run_calculator (s : CalcState) (mde_range : Option (List ℚ)) :
    (calculate_power_analysis_run s mde_range).2.calculator = s.calculator := by
  unfold calculate_power_analysis_run
  cases h : calculate_power_analysis s.calculator mde_range <;> simp

/-- C9: the sweep's returned table depends only on the frozen parameters —
running it a second time after a first run (whose only state effect is
writing results_df) returns the identical sequence, and any two states
with the same parameters produce the same table regardless of any cached
results_df. -/
theorem C9_sweep_idempotent (s : CalcState) (mde_range : Option (List ℚ)) :
    ((calculate_power_analysis_run
        (calculate_power_analysis_run s mde_range).2 mde_range).1 =
      (calculate_power_analysis_run s mde_range).1) ∧
    ∀ s' : CalcState, s'.calculator = s.calculator →
      (calculate_power_analysis_run s' mde_range).1 =
        (calculate_power_analysis_run s mde_range).1 := by
  constructor
  · rw [run_fst, run_fst, run_calculator]
  · intro s' h
    rw [run_fst, run_fst, h]

/-- Witness for C9: a state with a stale cached table and a fresh state
with the same parameters return the same sweep result. -/
theorem C9_witness :
    (calculate_power_analysis_run ⟨cRef, some []⟩ (some [10])).1 =
      (calculate_power_analysis_run ⟨cRef, none⟩ (some [10])).1 :=
  (C9_sweep_idempotent ⟨cRef, none⟩ (some [10])).2 ⟨cRef, some []⟩ rfl

lemma mapM_ok_mem {α β : Type} {f : α → Except CalcError β} :
    ∀ {l : List α} {ys : List β}, l.mapM f = Except.ok ys →
      ∀ y ∈ ys, ∃ x ∈ l, f x = Except.ok y := by
  intro l
  induction l with
  | nil =>
      intro ys h y hy
      simp only [List.mapM_nil] at h
      cases h
      simp at hy
  | cons a t ih =>
      intro ys h y hy
      rw [List.mapM_cons] at h
      cases hfa : f a with
      | error e =>
          rw [hfa] at h
          simp [Bind.bind, Except.bind] at h
      | ok b =>
          rw [hfa] at h
          cases hts : t.mapM f with
          | error e =>
              rw [hts] at h
              simp [Bind.bind, Except.bind] at h
          | ok bs =>
              rw [hts] at h
              simp only [Bind.bind, Except.bind, Pure.pure, Except.pure,
                Except.ok.injEq] at h
              subst h
              rcases List.mem_cons.mp hy with rfl | hmem
              · exact ⟨a, List.mem_cons_self a t, hfa⟩
              · obtain ⟨x, hx, hfx⟩ := ih hts y hmem
                exact ⟨x, List.mem_cons_of_mem a hx, hfx⟩

lemma mem_sweep {c : PowerAnalysisCalculator} {mde_range : Option (List ℚ)}
    {rs : List ResultRecord} {r : ResultRecord}
    (hok : calculate_power_analysis c mde_range = Except.ok rs)
    (hr : r ∈ rs) : ∃ m : ℚ, buildRecord c m = Except.ok r := by
  obtain ⟨m, -, hm⟩ := mapM_ok_mem hok r hr
  exact ⟨m, hm⟩

lemma buildRecord_ok_inv {c : PowerAnalysisCalculator} {m : ℚ}
    {r : ResultRecord} (h : buildRecord c m = Except.ok r) :
    ∃ n : ℤ,
      calculate_sample_size c (m / 100) = Except.ok n ∧
      r = { mde_percent := m
            mde_decimal := m / 100
            sample_size_per_variant := n
            total_sample_size := n * c.num_variants
            population_split_percent :=
              round2 (((n * c.num_variants : ℤ) : ℚ) /
                c.monthly_population * 100)
            duration_days :=
              round2 (((n * c.num_variants : ℤ) : ℚ) /
                (c.monthly_population / 30))
            duration_weeks :=
              round2 (((n * c.num_variants : ℤ) : ℚ) /
                (c.monthly_population / 30) / 7)
            feasibility :=
              feasibilityOf (((n * c.num_variants : ℤ) : ℚ) /
                (c.monthly_population / 30))
            traffic_assessment :=
              trafficOf (((n * c.num_variants : ℤ) : ℚ) /
                c.monthly_population * 100) } := by
  rw [buildRecord] at h
  cases hss : calculate_sample_size c (m / 100) with
  | error e => rw [hss] at h; simp [Except.map] at h
  | ok n =>
      rw [hss] at h
      simp only [Except.map, Except.ok.injEq] at h
      exact ⟨n, rfl, h.symm⟩

lemma feasibilityOf_iff (d : ℚ) :
    (feasibilityOf d = Feasibility.veryShort ↔ d ≤ 7) ∧
    (feasibilityOf d = Feasibility.short ↔ 7 < d ∧ d ≤ 14) ∧
    (feasibilityOf d = Feasibility.moderate ↔ 14 < d ∧ d ≤ 30) ∧
    (feasibilityOf d = Feasibility.long ↔ 30 < d) := by
  unfold feasibilityOf
  split_ifs with h1 h2 h3 <;>
    refine ⟨?_, ?_, ?_, ?_⟩ <;> simp_all <;>
      first
      | linarith
      | (intro h; linarith)

lemma trafficOf_iff (s : ℚ) :
    (trafficOf s = TrafficAssessment.excellent ↔ s ≤ 25) ∧
    (trafficOf s = TrafficAssessment.good ↔ 25 < s ∧ s ≤ 50) ∧
    (trafficOf s = TrafficAssessment.challenging ↔ 50 < s ∧ s ≤ 75) ∧
    (trafficOf s = TrafficAssessment.insufficientTraffic ↔ 75 < s) := by
  unfold trafficOf
  split_ifs with h1 h2 h3 <;>
    refine ⟨?_, ?_, ?_, ?_⟩ <;> simp_all <;>
      first
      | linarith
      | (intro h; linarith)

/-- C5: for every record the sweep produces, the feasibility field is
exactly the bucket of the duration in days (total sample size divided by
monthly_population / 30) with inclusive lower boundaries at 7, 14 and 30,
and the traffic_assessment field is exactly the bucket of the population
split percentage with inclusive lower boundaries at 25, 50 and 75; the
four buckets of each classification are characterised by mutually
exclusive, exhaustive interval conditions. -/
theorem C5_bucket_classification (c : PowerAnalysisCalculator)
    (mde_range : Option (List ℚ)) (rs : List ResultRecord) (r : ResultRecord)
    (hok : calculate_power_analysis c mde_range = Except.ok rs)
    (hr : r ∈ rs) :
    ((r.feasibility = Feasibility.veryShort ↔
        (r.total_sample_size : ℚ) / (c.monthly_population / 30) ≤ 7) ∧
     (r.feasibility = Feasibility.short ↔
        7 < (r.total_sample_size : ℚ) / (c.monthly_population / 30) ∧
        (r.total_sample_size : ℚ) / (c.monthly_population / 30) ≤ 14) ∧
     (r.feasibility = Feasibility.moderate ↔
        14 < (r.total_sample_size : ℚ) / (c.monthly_population / 30) ∧
        (r.total_sample_size : ℚ) / (c.monthly_population / 30) ≤ 30) ∧
     (r.feasibility = Feasibility.long ↔
        30 < (r.total_sample_size : ℚ) / (c.monthly_population / 30))) ∧
    ((r.traffic_assessment = TrafficAssessment.excellent ↔
        (r.total_sample_size : ℚ) / c.monthly_population * 100 ≤ 25) ∧
     (r.traffic_assessment = TrafficAssessment.good ↔
        25 < (r.total_sample_size : ℚ) / c.monthly_population * 100 ∧
        (r.total_sample_size : ℚ) / c.monthly_population * 100 ≤ 50) ∧
     (r.traffic_assessment = TrafficAssessment.challenging ↔
        50 < (r.total_sample_size : ℚ) / c.monthly_population * 100 ∧
        (r.total_sample_size : ℚ) / c.monthly_population * 100 ≤ 75) ∧
     (r.traffic_assessment = TrafficAssessment.insufficientTraffic ↔
        75 < (r.total_sample_size : ℚ) / c.monthly_population * 100)) := by
  obtain ⟨m, hm⟩ := mem_sweep hok hr
  obtain ⟨n, -, rfl⟩ := buildRecord_ok_inv hm
  exact ⟨feasibilityOf_iff _, trafficOf_iff _⟩

/-- C6: every record the sweep produces satisfies
total_sample_size = sample_size_per_variant * num_variants exactly, and
its stored population_split_percent, duration_days and duration_weeks
fields are the raw values 100 * total / monthly_population,
total / (monthly_population / 30) and duration_days / 7 each rounded to
two decimal places exactly once. -/
theorem C6_record_fields (c : PowerAnalysisCalculator)
    (mde_range : Option (List ℚ)) (rs : List ResultRecord) (r : ResultRecord)
    (hok : calculate_power_analysis c mde_range = Except.ok rs)
    (hr : r ∈ rs) :
    r.total_sample_size = r.sample_size_per_variant * c.num_variants ∧
    r.population_split_percent =
      round2 (100 * (r.total_sample_size : ℚ) / c.monthly_population) ∧
    r.duration_days =
      round2 ((r.total_sample_size : ℚ) / (c.monthly_population / 30)) ∧
    r.duration_weeks =
      round2 ((r.total_sample_size : ℚ) / (c.monthly_population / 30) / 7) := by
  obtain ⟨m, hm⟩ := mem_sweep hok hr
  obtain ⟨n, -, rfl⟩ := buildRecord_ok_inv hm
  refine ⟨rfl, ?_, rfl, rfl⟩
  ring_nf

/-- Result row of the canonical sweep at mde_percent = 10: 75 per variant,
150 total, a 0.15 percent split and a 0.045-day raw duration whose display
values round to 0.15, 0.04 and 0.01. -/
def r10 : ResultRecord :=
  { mde_percent := 10
    mde_decimal := 10 / 100
    sample_size_per_variant := 75
    total_sample_size := 150
    population_split_percent := 15 / 100
    duration_days := 4 / 100
    duration_weeks := 1 / 100
    feasibility := Feasibility.veryShort
    traffic_assessment := TrafficAssessment.excellent }

lemma buildRecord_cRef_10 : buildRecord cRef 10 = Except.ok r10 := by
  have h : (10 : ℚ) / 100 = 1 / 10 := by norm_num
  rw [buildRecord, h, calculate_sample_size_cRef_tenth]
  simp only [Except.map]
  show Except.ok _ = Except.ok r10
  congr 1
  show ({ mde_percent := 10
          mde_decimal := 1 / 10
          sample_size_per_variant := 75
          total_sample_size := 75 * 2
          population_split_percent := round2 (((75 * 2 : ℤ) : ℚ) / 100000 * 100)
          duration_days := round2 (((75 * 2 : ℤ) : ℚ) / (100000 / 30))
          duration_weeks := round2 (((75 * 2 : ℤ) : ℚ) / (100000 / 30) / 7)
          feasibility := feasibilityOf (((75 * 2 : ℤ) : ℚ) / (100000 / 30))
          traffic_assessment :=
            trafficOf (((75 * 2 : ℤ) : ℚ) / 100000 * 100) } : ResultRecord) = r10
  have hsplit : ((75 * 2 : ℤ) : ℚ) / 100000 * 100 = 3 / 20 := by norm_num
  have hdays : ((75 * 2 : ℤ) : ℚ) / (100000 / 30) = 9 / 200 := by norm_num
  have hweeks : (9 : ℚ) / 200 / 7 = 9 / 1400 := by norm_num
  rw [hsplit, hdays, hweeks]
  have h1 : round2 (3 / 20) = 15 / 100 := by
    rw [round2, roundHalfEven]
    norm_num
  have h2 : round2 (9 / 200) = 4 / 100 := by
    rw [round2, roundHalfEven]
    norm_num
  have h3 : round2 (9 / 1400) = 1 / 100 := by
    rw [round2, roundHalfEven]
    norm_num
  have h4 : feasibilityOf (9 / 200) = Feasibility.veryShort := by
    rw [feasibilityOf, if_pos (by norm_num)]
  have h5 : trafficOf (3 / 20) = TrafficAssessment.excellent := by
    rw [trafficOf, if_pos (by norm_num)]
  rw [h1, h2, h3, h4, h5]
  simp only [r10, ResultRecord.mk.injEq]
  norm_num

lemma sweep_cRef_10 :
    calculate_power_analysis cRef (some [10]) = Except.ok [r10] := by
  show List.mapM (buildRecord cRef) [10] = _
  rw [List.mapM_cons, List.mapM_nil, buildRecord_cRef_10]
  rfl

/-- Witness for C5: the canonical sweep at mde 10 percent yields a record
whose raw duration 0.045 days and raw split 0.15 percent put it in the
VeryShort and Excellent buckets. -/
theorem C5_witness :
    r10.feasibility = Feasibility.veryShort ∧
    r10.traffic_assessment = TrafficAssessment.excellent := by
  have h := C5_bucket_classification cRef (some [10]) [r10] r10 sweep_cRef_10
    (List.mem_singleton_self r10)
  exact ⟨h.1.1.mpr (by norm_num [r10, cRef, init]),
    h.2.1.mpr (by norm_num [r10, cRef, init])⟩

/-- Witness for C6 at the canonical sweep restricted to mde 10 percent. -/
theorem C6_witness :
    r10.total_sample_size = r10.sample_size_per_variant * cRef.num_variants ∧
    r10.population_split_percent =
      round2 (100 * (r10.total_sample_size : ℚ) / cRef.monthly_population) ∧
    r10.duration_days =
      round2 ((r10.total_sample_size : ℚ) / (cRef.monthly_population / 30)) ∧
    r10.duration_weeks =
      round2 ((r10.total_sample_size : ℚ) /
        (cRef.monthly_population / 30) / 7) :=
  C6_record_fields cRef (some [10]) [r10] r10 sweep_cRef_10
    (List.mem_singleton_self r10)

lemma getLast?_mde_max :
    ∀ {l : List ResultRecord},
      (l.Pairwise fun a b => a.mde_percent < b.mde_percent) →
      ∀ {r : ResultRecord}, l.getLast? = some r →
        r ∈ l ∧ ∀ x ∈ l, x.mde_percent ≤ r.mde_percent := by
  intro l
  induction l with
  | nil => intro _ r h; simp at h
  | cons a t ih =>
      intro hp r hlast
      cases t with
      | nil =>
          simp only [List.getLast?_singleton, Option.some.injEq] at hlast
          subst hlast
          refine ⟨List.mem_cons_self a [], ?_⟩
          intro x hx
          rcases List.mem_singleton.mp hx with rfl
          exact le_refl _
      | cons b t2 =>
          rw [List.getLast?_cons_cons] at hlast
          obtain ⟨hmem, hmax⟩ := ih (List.pairwise_cons.mp hp).2 hlast
          refine ⟨List.mem_cons_of_mem a hmem, ?_⟩
          intro x hx
          rcases List.mem_cons.mp hx with rfl | hx2
          · exact le_of_lt ((List.pairwise_cons.mp hp).1 r hmem)
          · exact hmax x hx2

lemma quickPool_sublist (rs : List ResultRecord) :
    List.Sublist (quickPool rs) rs :=
  (List.filter_sublist (feasibleOf rs)).trans (List.filter_sublist rs)

/-- C4: for every results table in ascending-MDE order, get_recommendations
restricts to the rows with Duration_Days <= 30 and
Population_Split_Percent <= 50; all three picks are absent when that set is
empty; quick is the row of largest MDE among feasible rows with
Duration_Days <= 7 (absent when there is none); standard is the row at
position floor(count / 2) among feasible rows with 7 < Duration_Days <= 21
(absent when there is none); sensitive is the feasible row of smallest MDE;
and each pick carries exactly that row's MDE_Percent, Duration_Days and
Total_Sample_Size. -/
theorem C4_recommendation_selection (rs : List ResultRecord)
    (hsort : rs.Pairwise fun a b => a.mde_percent < b.mde_percent) :
    (feasibleOf rs = [] →
      (get_recommendations rs).quick_test = none ∧
      (get_recommendations rs).standard_test = none ∧
      (get_recommendations rs).sensitive_test = none) ∧
    (quickPool rs = [] → (get_recommendations rs).quick_test = none) ∧
    (quickPool rs ≠ [] →
      ∃ r ∈ quickPool rs,
        (∀ x ∈ quickPool rs, x.mde_percent ≤ r.mde_percent) ∧
        (get_recommendations rs).quick_test =
          some { mde := r.mde_percent, duration := r.duration_days,
                 sample_size := r.total_sample_size }) ∧
    (standardPool rs = [] → (get_recommendations rs).standard_test = none) ∧
    (standardPool rs ≠ [] →
      ∃ r, (standardPool rs)[(standardPool rs).length / 2]? = some r ∧
        (get_recommendations rs).standard_test =
          some { mde := r.mde_percent, duration := r.duration_days,
                 sample_size := r.total_sample_size }) ∧
    (feasibleOf rs ≠ [] →
      ∃ r ∈ feasibleOf rs,
        (∀ x ∈ feasibleOf rs, r.mde_percent ≤ x.mde_percent) ∧
        (get_recommendations rs).sensitive_test =
          some { mde := r.mde_percent, duration := r.duration_days,
                 sample_size := r.total_sample_size }) := by
  refine ⟨?_, ?_, ?_, ?_, ?_, ?_⟩
  · intro hfe
    refine ⟨?_, ?_, ?_⟩ <;>
      simp [get_recommendations, quickPool, standardPool, hfe]
  · intro hq
    simp [get_recommendations, hq]
  · intro hq
    have hlast := List.getLast?_eq_getLast (quickPool rs) hq
    obtain ⟨hmem, hmax⟩ :=
      getLast?_mde_max (hsort.sublist (quickPool_sublist rs)) hlast
    refine ⟨(quickPool rs).getLast hq, hmem, hmax, ?_⟩
    simp [get_recommendations, hlast, Recommendation.ofRecord]
  · intro hs
    simp [get_recommendations, hs]
  · intro hs
    have hlen : 0 < (standardPool rs).length := List.length_pos.mpr hs
    have hidx : (standardPool rs).length / 2 < (standardPool rs).length :=
      Nat.div_lt_self hlen (by norm_num)
    refine ⟨(standardPool rs)[(standardPool rs).length / 2], ?_, ?_⟩
    · exact List.getElem?_eq_getElem hidx
    · simp [get_recommendations, List.getElem?_eq_getElem hidx,
        Recommendation.ofRecord]
  · intro hfe
    obtain ⟨a, t, hat⟩ := List.exists_cons_of_ne_nil hfe
    have hpf : (feasibleOf rs).Pairwise
        (fun a b => a.mde_percent < b.mde_percent) :=
      hsort.sublist (List.filter_sublist rs)
    refine ⟨a, ?_, ?_, ?_⟩
    · rw [hat]; exact List.mem_cons_self a t
    · intro x hx
      rw [hat] at hx hpf
      rcases List.mem_cons.mp hx with rfl | hx2
      · exact le_refl _
      · exact le_of_lt ((List.pairwise_cons.mp hpf).1 x hx2)
    · simp [get_recommendations, hat, Recommendation.ofRecord]

/-- C10: whenever the quick or the standard recommendation is present, the
sensitive recommendation is present as well, because both candidate pools
are filters of the feasible set and sensitive is produced from any
non-empty feasible set. -/
theorem C10_sensitive_whenever_any (rs : List ResultRecord)
    (h : (get_recommendations rs).quick_test.isSome = true ∨
         (get_recommendations rs).standard_test.isSome = true) :
    (get_recommendations rs).sensitive_test.isSome = true := by
  have hfe : feasibleOf rs ≠ [] := by
    rcases h with h | h
    · simp only [get_recommendations, Option.isSome_map] at h
      intro hfe
      rw [show quickPool rs = [] by rw [quickPool, hfe]; rfl] at h
      simp at h
    · simp only [get_recommendations, Option.isSome_map] at h
      intro hfe
      rw [show standardPool rs = [] by rw [standardPool, hfe]; rfl] at h
      simp at h
  simp only [get_recommendations, Option.isSome_map]
  cases hh : (feasibleOf rs).head? with
  | none => exact absurd (List.head?_eq_none_iff.mp hh) hfe
  | some a => simp [hh]

/-- Synthetic results table for the recommendation witnesses (ascending
MDE): a 20-day standard-window row, a 10-day standard-window row and a
5-day quick row, all feasible. -/
def raFix : ResultRecord :=
  { mde_percent := 1, mde_decimal := 1 / 100, sample_size_per_variant := 50
    total_sample_size := 100, population_split_percent := 10
    duration_days := 20, duration_weeks := 3
    feasibility := Feasibility.moderate
    traffic_assessment := TrafficAssessment.excellent }

/-- Second synthetic row, MDE 2, 10-day duration. -/
def rbFix : ResultRecord :=
  { mde_percent := 2, mde_decimal := 2 / 100, sample_size_per_variant := 40
    total_sample_size := 80, population_split_percent := 10
    duration_days := 10, duration_weeks := 2
    feasibility := Feasibility.short
    traffic_assessment := TrafficAssessment.excellent }

/-- Third synthetic row, MDE 3, 5-day duration. -/
def rcFix : ResultRecord :=
  { mde_percent := 3, mde_decimal := 3 / 100, sample_size_per_variant := 30
    total_sample_size := 60, population_split_percent := 10
    duration_days := 5, duration_weeks := 1
    feasibility := Feasibility.veryShort
    traffic_assessment := TrafficAssessment.excellent }

lemma fix_sorted :
    ([raFix, rbFix, rcFix] : List ResultRecord).Pairwise
      (fun a b => a.mde_percent < b.mde_percent) := by
  norm_num [List.pairwise_cons, raFix, rbFix, rcFix]

lemma fix_quickPool : quickPool [raFix, rbFix, rcFix] = [rcFix] := by
  norm_num [quickPool, feasibleOf, List.filter_cons, raFix, rbFix, rcFix]

/-- Witness for C4 at the synthetic table: the single 5-day row is picked
as the quick test with its own MDE, duration and sample size. -/
theorem C4_witness :
    ∃ r ∈ quickPool [raFix, rbFix, rcFix],
      (∀ x ∈ quickPool [raFix, rbFix, rcFix],
        x.mde_percent ≤ r.mde_percent) ∧
      (get_recommendations [raFix, rbFix, rcFix]).quick_test =
        some { mde := r.mde_percent, duration := r.duration_days,
               sample_size := r.total_sample_size } :=
  (C4_recommendation_selection [raFix, rbFix, rcFix] fix_sorted).2.2.1
    (by rw [fix_quickPool]; simp)

/-- Witness for C10 at the synthetic table: the quick recommendation is
present, so the sensitive recommendation is present. -/
theorem C10_witness :
    (get_recommendations [raFix, rbFix, rcFix]).sensitive_test.isSome =
      true :=
  C10_sensitive_whenever_any [raFix, rbFix, rcFix]
    (Or.inl (by simp [get_recommendations, fix_quickPool]))

end PowerAnalysis
